import Mathlib

/-!
Verification of `service_creator.py`.

The script is a single linear program: it validates a command file, a service
name and an optional working directory, renders a systemd unit file, writes it
to a staging path under `/tmp`, and then either prints manual installation
instructions (when not running as root) or installs the unit by running four
external commands in sequence.

Shallow embedding: all ambient OS state the script consults (filesystem
existence, file contents, directory test, absolute-path resolution, Python's
Unicode `str.isalnum`, the effective uid, and the success of each subprocess
invocation) is packaged in an `Env` record.  `create_service` and `mainRun`
below are direct transcriptions of the Python functions of the same names;
the observable effects (messages printed, staged file written, install steps
executed) are collected in a `Result` record.
-/

set_option maxRecDepth 20000

/-- One privileged install step, in the order the script runs them
(`subprocess.run` calls at lines 96-101 of the source).  `mv` carries the
source and destination path arguments, `enable`/`start` the unit filename. -/
inductive Step where
  | mv (src dst : String)
  | daemonReload
  | enable (unit : String)
  | start (unit : String)
deriving DecidableEq, Repr

/-- The messages the script prints, one constructor per `print` call site.
`installFailed` models the `except` branch message
`Error: Failed to install service. {e}`; it carries the failed step, since the
`CalledProcessError` `e` identifies the failing command. -/
inductive Msg where
  | errFileNotFound (path : String)
  | errEmptyFile
  | errBadName
  | warnBadDir (dir : String)
  | needRoot
  | stagedAt (path : String)
  | runFollowing
  | sudoMv (src dst : String)
  | sudoDaemonReload
  | sudoEnable (unit : String)
  | sudoStart (unit : String)
  | installed (name : String)
  | checkStatus (unit : String)
  | installFailed (s : Step)
  | usage
deriving DecidableEq, Repr

/-- Ambient OS state consulted by the script: `pathExists` is
`os.path.exists`, `readFile` the content returned by reading a file,
`isDir` is `os.path.isdir`, `absPath` is `os.path.abspath`, `isAlnum` is
Python's Unicode-aware `str.isalnum` on a single character, `euid` is
`os.geteuid()`, and `stepOk` tells whether a given subprocess invocation
exits with status 0 (`check=True` raises otherwise). -/
structure Env where
  pathExists : String → Bool
  readFile : String → String
  isDir : String → Bool
  absPath : String → String
  isAlnum : Char → Bool
  euid : Nat
  stepOk : Step → Bool

/-- Observable outcome of `create_service`: the boolean return value, the
messages printed in order, the staged file written to `/tmp` (path and byte
content), and the privileged install steps actually executed, in order. -/
structure Result where
  success : Bool
  msgs : List Msg
  staged : Option (String × String)
  ran : List Step
deriving DecidableEq, Repr

/-- Python's `str.strip()` (line 31 of the source): drop leading and trailing
whitespace characters.  (Core `String.trim` is defined by well-founded
recursion over byte positions and does not reduce in the kernel, so the same
function is written here structurally over the character list.) -/
def pyStrip (s : String) : String :=
  String.mk
    (((s.data.dropWhile Char.isWhitespace).reverse.dropWhile
        Char.isWhitespace).reverse)

/-- Python's `' ' in command` (line 47 of the source): does the string contain
a space character (U+0020)?  Note this tests only the space character, not
arbitrary whitespace. -/
def containsSpace (s : String) : Bool := s.data.any (fun c => c = ' ')

/-- Line 38 of the source:
`service_name = ''.join(c for c in service_name if c.isalnum() or c in '-_')`. -/
def pySanitize (isAlnum : Char → Bool) (s : String) : String :=
  String.mk (s.data.filter (fun c => isAlnum c || c = '-' || c = '_'))

/-- Lines 47-48 of the source: rewrite the command to its absolute path
exactly when it contains no space character and a filesystem entry exists at
that exact path. -/
def normalizeCommand (env : Env) (command : String) : String :=
  if !(containsSpace command) && env.pathExists command then
    env.absPath command
  else command

/-- The fixed tail appended to the unit-file content at lines 68-75. -/
def unitTail : String :=
  "Restart=on-failure\nRestartSec=5\nStandardOutput=journal\nStandardError=journal\n\n[Install]\nWantedBy=multi-user.target\n"

/-- The four privileged install steps in source order (lines 96-101). -/
def installSteps (tempPath sysPath unit : String) : List Step :=
  [Step.mv tempPath sysPath, Step.daemonReload, Step.enable unit, Step.start unit]

/-- Runs steps in order; stops at the first failing one.  Returns the list of
steps actually executed (the failing one included) and the failing step, if
any.  This models the straight-line `subprocess.run(..., check=True)` calls
wrapped in a single `try/except` (lines 94-109). -/
def runSteps (ok : Step → Bool) : List Step → List Step × Option Step
  | [] => ([], none)
  | s :: rest =>
      if ok s then
        let r := runSteps ok rest
        (s :: r.1, r.2)
      else ([s], some s)

/-- Direct transcription of `create_service` (lines 19-109 of the source). -/
def create_service (env : Env) (command_file service_name0 : String)
    (working_directory : Option String) : Result :=
  if env.pathExists command_file = false then
    ⟨false, [Msg.errFileNotFound command_file], none, []⟩
  else
    let command0 := pyStrip (env.readFile command_file)
    if command0 = "" then ⟨false, [Msg.errEmptyFile], none, []⟩
    else
      let service_name := pySanitize env.isAlnum service_name0
      if service_name = "" then ⟨false, [Msg.errBadName], none, []⟩
      else
        let service_filename := service_name ++ ".service"
        let service_path := "/etc/systemd/system/" ++ service_filename
        let command := normalizeCommand env command0
        let base := "[Unit]\nDescription=" ++ service_name ++
          " service\nAfter=network.target\n\n[Service]\nType=simple\nExecStart=" ++
          command ++ "\n"
        let wdRes : List Msg × String :=
          match working_directory with
          | some wd =>
              if wd ≠ "" then
                if env.isDir wd then
                  ([], base ++ ("WorkingDirectory=" ++ env.absPath wd ++ "\n"))
                else ([Msg.warnBadDir wd], base)
              else ([], base)
          | none => ([], base)
        let service_content := wdRes.2 ++ unitTail
        let temp_service_path := "/tmp/" ++ service_filename
        let staged := some (temp_service_path, service_content)
        if env.euid ≠ 0 then
          ⟨true,
           wdRes.1 ++ [Msg.needRoot, Msg.stagedAt temp_service_path,
             Msg.runFollowing, Msg.sudoMv temp_service_path service_path,
             Msg.sudoDaemonReload, Msg.sudoEnable service_filename,
             Msg.sudoStart service_filename],
           staged, []⟩
        else
          let run := runSteps env.stepOk
            (installSteps temp_service_path service_path service_filename)
          ⟨run.2.isNone,
           wdRes.1 ++
             (match run.2 with
              | some s => [Msg.installFailed s]
              | none => [Msg.installed service_name,
                  Msg.checkStatus service_filename]),
           staged, run.1⟩

/-- Direct transcription of `main` (lines 111-122): `argv` is the full
`sys.argv` (program name included); a length other than 3 or 4 prints usage
and exits 1; otherwise the exit code is 0 iff `create_service` returned
success.  Returns the exit code together with the messages printed. -/
def mainRun (env : Env) (argv : List String) : Nat × List Msg :=
  match argv with
  | [_, command_file, service_name] =>
      let r := create_service env command_file service_name none
      (if r.success then 0 else 1, r.msgs)
  | [_, command_file, service_name, working_directory] =>
      let r := create_service env command_file service_name
        (some working_directory)
      (if r.success then 0 else 1, r.msgs)
  | _ => (1, [Msg.usage])

/-- Modelled from the spec, section 6: the literal unit-file template with
fields in the stated fixed order; the `WorkingDirectory=` line is present
exactly when a validated absolute path is supplied. -/
def specUnitText (name command : String) (wd : Option String) : String :=
  "[Unit]\nDescription=" ++ name ++
  " service\nAfter=network.target\n\n[Service]\nType=simple\nExecStart=" ++
  command ++ "\n" ++
  (match wd with
   | some d => "WorkingDirectory=" ++ d ++ "\n"
   | none => "") ++
  "Restart=on-failure\nRestartSec=5\nStandardOutput=journal\nStandardError=journal\n\n[Install]\nWantedBy=multi-user.target\n"

/-- The working-directory value that actually lands in the rendered file:
the absolute form when a non-empty existing directory was supplied
(Python's `if working_directory:` treats `None` and `""` alike), `none`
otherwise (lines 61-66). -/
def wdNorm (env : Env) : Option String → Option String
  | some d => if d ≠ "" && env.isDir d then some (env.absPath d) else none
  | none => none

/-- Recognizes the bad-working-directory warning message. -/
def isWarnBadDir : Msg → Bool
  | Msg.warnBadDir _ => true
  | _ => false

/-- A concrete environment for witnesses: unprivileged run, command file
`cmd.txt` containing `/bin/run --serve`, an existing directory `/srv`. -/
def envW : Env :=
  ⟨fun p => p = "cmd.txt" || p = "/bin/run",
   fun p => if p = "cmd.txt" then " /bin/run --serve \n" else "",
   fun d => d = "/srv",
   fun s => if s.front = '/' then s else "/cwd/" ++ s,
   Char.isAlphanum, 1000, fun _ => true⟩

/-- A concrete privileged environment in which `systemctl enable` fails and
every other install step succeeds. -/
def envR : Env :=
  ⟨fun p => p = "cmd.txt" || p = "/bin/run",
   fun p => if p = "cmd.txt" then " /bin/run --serve \n" else "",
   fun d => d = "/srv",
   fun s => if s.front = '/' then s else "/cwd/" ++ s,
   Char.isAlphanum, 0,
   fun s => match s with
            | Step.enable _ => false
            | _ => true⟩

/-- A concrete environment for the command-normalization counterexample: the
command file `cf` holds `a<TAB>b`, and a filesystem entry exists at the exact
path `a<TAB>b`. -/
def envT : Env :=
  ⟨fun p => p = "cf" || p = "a\tb",
   fun p => if p = "cf" then "a\tb" else "",
   fun _ => false,
   fun s => "/abs/" ++ s,
   Char.isAlphanum, 1000, fun _ => true⟩

/-- A concrete environment whose `isAlnum` models Python's Unicode-aware
`str.isalnum`, on which `'é'.isalnum()` is true. -/
def envU : Env :=
  ⟨fun p => p = "cmd.txt",
   fun p => if p = "cmd.txt" then "/bin/run\n" else "",
   fun _ => false,
   fun s => if s.front = '/' then s else "/cwd/" ++ s,
   fun c => c.isAlphanum || c = 'é',
   1000, fun _ => true⟩

theorem strAppendAssoc (a b c : String) : a ++ b ++ c = a ++ (b ++ c) := by
  cases a with | mk la =>
  cases b with | mk lb =>
  cases c with | mk lc =>
  show String.mk (la ++ lb ++ lc) = String.mk (la ++ (lb ++ lc))
  rw [List.append_assoc]

/-- Characterization of the staged file under valid inputs: it is written at
`/tmp/<sanitized>.service` and its content is exactly the spec's template. -/
theorem create_service_staged (env : Env) (cf sn : String) (wd : Option String)
    (hcf : env.pathExists cf = true)
    (hcmd : pyStrip (env.readFile cf) ≠ "")
    (hsn : pySanitize env.isAlnum sn ≠ "") :
    (create_service env cf sn wd).staged =
      some ("/tmp/" ++ (pySanitize env.isAlnum sn ++ ".service"),
        specUnitText (pySanitize env.isAlnum sn)
          (normalizeCommand env (pyStrip (env.readFile cf)))
          (wdNorm env wd)) := by
  cases wd with
  | none =>
      by_cases he : env.euid = 0 <;>
        simp [create_service, specUnitText, wdNorm, unitTail, hcf, hcmd, hsn,
          he, strAppendAssoc, String.append_empty]
  | some d =>
      by_cases h1 : d = "" <;>
        by_cases h2 : env.isDir d <;>
        by_cases he : env.euid = 0 <;>
        simp [create_service, specUnitText, wdNorm, unitTail, hcf, hcmd, hsn,
          h1, h2, he, strAppendAssoc, String.append_empty]

example : (create_service envW "cmd.txt" "My Service!" none).staged =
    some ("/tmp/MyService.service",
      specUnitText "MyService" "/bin/run --serve" none) := by decide

example : (create_service envW "cmd.txt" "svc" (some "/srv")).staged =
    some ("/tmp/svc.service",
      specUnitText "svc" "/bin/run --serve" (some "/srv")) := by decide

example : mainRun envW ["prog", "missing.txt", "svc"] =
    (1, [Msg.errFileNotFound "missing.txt"]) := by decide

/-- C1: for every valid input (existing non-empty command file, service name
that sanitizes non-empty), the generated unit-file text follows the literal
fixed-field template of spec section 6 in that exact order: `[Unit]` with
`Description=<sanitized> service` and `After=network.target`, then `[Service]`
with `Type=simple`, `ExecStart=<normalized command>`, an optional
`WorkingDirectory=<abs_path>` line present only if a valid directory was
supplied, `Restart=on-failure`, `RestartSec=5`, `StandardOutput=journal`,
`StandardError=journal`, then `[Install]` with `WantedBy=multi-user.target`. -/
theorem c1_unit_file_follows_template (env : Env) (cf sn : String)
    (wd : Option String)
    (hcf : env.pathExists cf = true)
    (hcmd : pyStrip (env.readFile cf) ≠ "")
    (hsn : pySanitize env.isAlnum sn ≠ "") :
    (create_service env cf sn wd).staged =
      some ("/tmp/" ++ (pySanitize env.isAlnum sn ++ ".service"),
        specUnitText (pySanitize env.isAlnum sn)
          (normalizeCommand env (pyStrip (env.readFile cf)))
          (wdNorm env wd)) :=
  create_service_staged env cf sn wd hcf hcmd hsn

/-- Witness for C1 at a concrete environment and inputs. -/
theorem c1_unit_file_follows_template_witness :
    (create_service envW "cmd.txt" "My Service!" (some "/srv")).staged =
      some ("/tmp/" ++ (pySanitize envW.isAlnum "My Service!" ++ ".service"),
        specUnitText (pySanitize envW.isAlnum "My Service!")
          (normalizeCommand envW (pyStrip (envW.readFile "cmd.txt")))
          (wdNorm envW (some "/srv"))) :=
  c1_unit_file_follows_template envW "cmd.txt" "My Service!" (some "/srv")
    (by decide) (by decide) (by decide)

/-- C2: on the privileged path the four install steps run in the fixed order
move-staged-file, reload-unit-database, enable-unit, start-unit; the first
failing step aborts all remaining steps, the failure is reported with a
message carrying the underlying tool's error (the failed step), the function
returns failure, and no already-completed step is rolled back (the executed
prefix, the staged file and all earlier effects remain in place; the model has
no undo action, matching the source). -/
theorem c2_install_first_failure_aborts (env : Env) (cf sn : String)
    (wd : Option String)
    (hcf : env.pathExists cf = true)
    (hcmd : pyStrip (env.readFile cf) ≠ "")
    (hsn : pySanitize env.isAlnum sn ≠ "")
    (he : env.euid = 0) :
    (env.stepOk (Step.mv ("/tmp/" ++ (pySanitize env.isAlnum sn ++ ".service"))
          ("/etc/systemd/system/" ++ (pySanitize env.isAlnum sn ++ ".service"))) = false →
        (create_service env cf sn wd).ran =
          [Step.mv ("/tmp/" ++ (pySanitize env.isAlnum sn ++ ".service"))
            ("/etc/systemd/system/" ++ (pySanitize env.isAlnum sn ++ ".service"))] ∧
        (create_service env cf sn wd).success = false ∧
        Msg.installFailed (Step.mv ("/tmp/" ++ (pySanitize env.isAlnum sn ++ ".service"))
            ("/etc/systemd/system/" ++ (pySanitize env.isAlnum sn ++ ".service")))
          ∈ (create_service env cf sn wd).msgs ∧
        (create_service env cf sn wd).staged.isSome = true) ∧
    (env.stepOk (Step.mv ("/tmp/" ++ (pySanitize env.isAlnum sn ++ ".service"))
          ("/etc/systemd/system/" ++ (pySanitize env.isAlnum sn ++ ".service"))) = true →
      env.stepOk Step.daemonReload = false →
        (create_service env cf sn wd).ran =
          [Step.mv ("/tmp/" ++ (pySanitize env.isAlnum sn ++ ".service"))
            ("/etc/systemd/system/" ++ (pySanitize env.isAlnum sn ++ ".service")),
           Step.daemonReload] ∧
        (create_service env cf sn wd).success = false ∧
        Msg.installFailed Step.daemonReload ∈ (create_service env cf sn wd).msgs ∧
        (create_service env cf sn wd).staged.isSome = true) ∧
    (env.stepOk (Step.mv ("/tmp/" ++ (pySanitize env.isAlnum sn ++ ".service"))
          ("/etc/systemd/system/" ++ (pySanitize env.isAlnum sn ++ ".service"))) = true →
      env.stepOk Step.daemonReload = true →
      env.stepOk (Step.enable (pySanitize env.isAlnum sn ++ ".service")) = false →
        (create_service env cf sn wd).ran =
          [Step.mv ("/tmp/" ++ (pySanitize env.isAlnum sn ++ ".service"))
            ("/etc/systemd/system/" ++ (pySanitize env.isAlnum sn ++ ".service")),
           Step.daemonReload,
           Step.enable (pySanitize env.isAlnum sn ++ ".service")] ∧
        (create_service env cf sn wd).success = false ∧
        Msg.installFailed (Step.enable (pySanitize env.isAlnum sn ++ ".service"))
          ∈ (create_service env cf sn wd).msgs ∧
        (create_service env cf sn wd).staged.isSome = true) ∧
    (env.stepOk (Step.mv ("/tmp/" ++ (pySanitize env.isAlnum sn ++ ".service"))
          ("/etc/systemd/system/" ++ (pySanitize env.isAlnum sn ++ ".service"))) = true →
      env.stepOk Step.daemonReload = true →
      env.stepOk (Step.enable (pySanitize env.isAlnum sn ++ ".service")) = true →
      env.stepOk (Step.start (pySanitize env.isAlnum sn ++ ".service")) = false →
        (create_service env cf sn wd).ran =
          [Step.mv ("/tmp/" ++ (pySanitize env.isAlnum sn ++ ".service"))
            ("/etc/systemd/system/" ++ (pySanitize env.isAlnum sn ++ ".service")),
           Step.daemonReload,
           Step.enable (pySanitize env.isAlnum sn ++ ".service"),
           Step.start (pySanitize env.isAlnum sn ++ ".service")] ∧
        (create_service env cf sn wd).success = false ∧
        Msg.installFailed (Step.start (pySanitize env.isAlnum sn ++ ".service"))
          ∈ (create_service env cf sn wd).msgs ∧
        (create_service env cf sn wd).staged.isSome = true) ∧
    (env.stepOk (Step.mv ("/tmp/" ++ (pySanitize env.isAlnum sn ++ ".service"))
          ("/etc/systemd/system/" ++ (pySanitize env.isAlnum sn ++ ".service"))) = true →
      env.stepOk Step.daemonReload = true →
      env.stepOk (Step.enable (pySanitize env.isAlnum sn ++ ".service")) = true →
      env.stepOk (Step.start (pySanitize env.isAlnum sn ++ ".service")) = true →
        (create_service env cf sn wd).success = true ∧
        (create_service env cf sn wd).ran =
          [Step.mv ("/tmp/" ++ (pySanitize env.isAlnum sn ++ ".service"))
            ("/etc/systemd/system/" ++ (pySanitize env.isAlnum sn ++ ".service")),
           Step.daemonReload,
           Step.enable (pySanitize env.isAlnum sn ++ ".service"),
           Step.start (pySanitize env.isAlnum sn ++ ".service")]) := by
  refine ⟨?_, ?_, ?_, ?_, ?_⟩
  · intro h1
    simp [create_service, installSteps, runSteps, hcf, hcmd, hsn, he, h1,
      strAppendAssoc]
  · intro h1 h2
    simp [create_service, installSteps, runSteps, hcf, hcmd, hsn, he, h1, h2,
      strAppendAssoc]
  · intro h1 h2 h3
    simp [create_service, installSteps, runSteps, hcf, hcmd, hsn, he, h1, h2,
      h3, strAppendAssoc]
  · intro h1 h2 h3 h4
    simp [create_service, installSteps, runSteps, hcf, hcmd, hsn, he, h1, h2,
      h3, h4, strAppendAssoc]
  · intro h1 h2 h3 h4
    simp [create_service, installSteps, runSteps, hcf, hcmd, hsn, he, h1, h2,
      h3, h4, strAppendAssoc]

/-- Witness for C2: in a privileged environment where `systemctl enable`
fails, exactly the first three steps ran, the call failed and reported the
failing step, and the moved file was not rolled back. -/
theorem c2_install_first_failure_aborts_witness :
    (create_service envR "cmd.txt" "svc" none).ran =
      [Step.mv ("/tmp/" ++ (pySanitize envR.isAlnum "svc" ++ ".service"))
        ("/etc/systemd/system/" ++ (pySanitize envR.isAlnum "svc" ++ ".service")),
       Step.daemonReload,
       Step.enable (pySanitize envR.isAlnum "svc" ++ ".service")] ∧
    (create_service envR "cmd.txt" "svc" none).success = false ∧
    Msg.installFailed (Step.enable (pySanitize envR.isAlnum "svc" ++ ".service"))
      ∈ (create_service envR "cmd.txt" "svc" none).msgs ∧
    (create_service envR "cmd.txt" "svc" none).staged.isSome = true :=
  (c2_install_first_failure_aborts envR "cmd.txt" "svc" none
    (by decide) (by decide) (by decide) (by decide)).2.2.1
    (by decide) (by decide) (by decide)

theorem runSteps_head (ok : Step → Bool) (s : Step) (rest : List Step) :
    ((runSteps ok (s :: rest)).1).head? = some s := by
  cases h : ok s <;> simp [runSteps, h]

/-- C3: sanitization keeps exactly the characters in
{alphanumeric, `-`, `_`}; when the sanitized result is non-empty, the staged
filename and the final (system) filename are exactly `<sanitized>.service`
(stem equal to the filtered string), both in the advisory instructions and in
the privileged move step; when the sanitized result is empty, no file is
written, no install step runs, and the program exits 1. -/
theorem c3_sanitize_and_filenames (env : Env) (p cf sn : String)
    (hcf : env.pathExists cf = true)
    (hcmd : pyStrip (env.readFile cf) ≠ "") :
    (pySanitize env.isAlnum sn).data =
      sn.data.filter (fun c => env.isAlnum c || c = '-' || c = '_') ∧
    (pySanitize env.isAlnum sn ≠ "" →
      ∃ content, (create_service env cf sn none).staged =
        some ("/tmp/" ++ (pySanitize env.isAlnum sn ++ ".service"), content)) ∧
    (pySanitize env.isAlnum sn ≠ "" → env.euid ≠ 0 →
      Msg.sudoMv ("/tmp/" ++ (pySanitize env.isAlnum sn ++ ".service"))
        ("/etc/systemd/system/" ++ (pySanitize env.isAlnum sn ++ ".service"))
        ∈ (create_service env cf sn none).msgs) ∧
    (pySanitize env.isAlnum sn ≠ "" → env.euid = 0 →
      (create_service env cf sn none).ran.head? =
        some (Step.mv ("/tmp/" ++ (pySanitize env.isAlnum sn ++ ".service"))
          ("/etc/systemd/system/" ++ (pySanitize env.isAlnum sn ++ ".service")))) ∧
    (pySanitize env.isAlnum sn = "" →
      (create_service env cf sn none).staged = none ∧
      (create_service env cf sn none).ran = [] ∧
      (mainRun env [p, cf, sn]).1 = 1) := by
  refine ⟨rfl, ?_, ?_, ?_, ?_⟩
  · intro hsn
    exact ⟨_, create_service_staged env cf sn none hcf hcmd hsn⟩
  · intro hsn he
    simp [create_service, hcf, hcmd, hsn, he, strAppendAssoc]
  · intro hsn he
    simp [create_service, installSteps, runSteps_head, hcf, hcmd, hsn, he,
      strAppendAssoc]
  · intro hsn
    simp [create_service, mainRun, hcf, hcmd, hsn]

/-- Witness for C3: `"My Service!"` sanitizes to `MyService` and yields the
staged and final filenames `MyService.service`; `"!!!"` sanitizes to empty,
writes nothing and exits 1. -/
theorem c3_sanitize_and_filenames_witness :
    ((∃ content, (create_service envW "cmd.txt" "My Service!" none).staged =
        some ("/tmp/" ++ (pySanitize envW.isAlnum "My Service!" ++ ".service"),
          content)) ∧
      Msg.sudoMv ("/tmp/" ++ (pySanitize envW.isAlnum "My Service!" ++ ".service"))
        ("/etc/systemd/system/" ++
          (pySanitize envW.isAlnum "My Service!" ++ ".service"))
        ∈ (create_service envW "cmd.txt" "My Service!" none).msgs) ∧
    ((create_service envW "cmd.txt" "!!!" none).staged = none ∧
      (create_service envW "cmd.txt" "!!!" none).ran = [] ∧
      (mainRun envW ["prog", "cmd.txt", "!!!"]).1 = 1) :=
  ⟨⟨(c3_sanitize_and_filenames envW "prog" "cmd.txt" "My Service!"
        (by decide) (by decide)).2.1 (by decide),
    (c3_sanitize_and_filenames envW "prog" "cmd.txt" "My Service!"
        (by decide) (by decide)).2.2.1 (by decide) (by decide)⟩,
    (c3_sanitize_and_filenames envW "prog" "cmd.txt" "!!!"
        (by decide) (by decide)).2.2.2.2 (by decide)⟩

/-- C4 as stated is false: the code tests only for the space character
(U+0020), not for arbitrary whitespace.  A trimmed command containing a tab
but no space, naming an existing filesystem entry, is rewritten to its
absolute path, although the claim requires any command containing whitespace
to be left untouched.  Here the command file holds `a<TAB>b`, an entry exists
at exactly `a<TAB>b`, and the rendered `ExecStart=` line carries the absolute
form `/abs/a<TAB>b`. -/
theorem c4_counterexample :
    "a\tb".data.any Char.isWhitespace = true ∧
    pyStrip (envT.readFile "cf") = "a\tb" ∧
    envT.pathExists "a\tb" = true ∧
    normalizeCommand envT "a\tb" = "/abs/a\tb" ∧
    ("/abs/a\tb" : String) ≠ "a\tb" ∧
    (create_service envT "cf" "svc" none).staged =
      some ("/tmp/svc.service", specUnitText "svc" "/abs/a\tb" none) := by
  decide

/-- C4 amended: for every trimmed command string, it is replaced by its
absolute path exactly when it contains no space character (U+0020) and a
filesystem entry exists at that exact path; in every other case (including
any command containing a space character, whether or not a matching
filesystem entry exists) the string is left untouched in the rendered
`ExecStart=` line. -/
theorem c4_command_normalization (env : Env) (c cf sn : String)
    (wd : Option String) :
    (containsSpace c = true → normalizeCommand env c = c) ∧
    (containsSpace c = false → env.pathExists c = true →
      normalizeCommand env c = env.absPath c) ∧
    (containsSpace c = false → env.pathExists c = false →
      normalizeCommand env c = c) ∧
    (env.pathExists cf = true → pyStrip (env.readFile cf) ≠ "" →
      pySanitize env.isAlnum sn ≠ "" →
      (create_service env cf sn wd).staged =
        some ("/tmp/" ++ (pySanitize env.isAlnum sn ++ ".service"),
          specUnitText (pySanitize env.isAlnum sn)
            (normalizeCommand env (pyStrip (env.readFile cf)))
            (wdNorm env wd))) := by
  refine ⟨fun h => ?_, fun h hp => ?_, fun h hp => ?_, fun h1 h2 h3 => ?_⟩
  · simp [normalizeCommand, h]
  · simp [normalizeCommand, h, hp]
  · simp [normalizeCommand, h, hp]
  · exact create_service_staged env cf sn wd h1 h2 h3

/-- Witness for C4 amended: a spaced command stays as is, a space-free
existing path is made absolute, a space-free non-existing name stays as is. -/
theorem c4_command_normalization_witness :
    normalizeCommand envT "a b" = "a b" ∧
    normalizeCommand envT "a\tb" = "/abs/a\tb" ∧
    normalizeCommand envT "nope" = "nope" :=
  ⟨(c4_command_normalization envT "a b" "cf" "svc" none).1 (by decide),
   (c4_command_normalization envT "a\tb" "cf" "svc" none).2.1
     (by decide) (by decide),
   (c4_command_normalization envT "nope" "cf" "svc" none).2.2.1
     (by decide) (by decide)⟩

/-- C5: whenever the command file does not exist, or exists but its content
is empty after trimming, no unit file is written anywhere (no staging write,
no install step runs) and the process exits 1. -/
theorem c5_missing_or_empty_command_file (env : Env) (p cf sn : String)
    (wd : Option String)
    (h : env.pathExists cf = false ∨ pyStrip (env.readFile cf) = "") :
    (create_service env cf sn wd).staged = none ∧
    (create_service env cf sn wd).ran = [] ∧
    (create_service env cf sn wd).success = false ∧
    (mainRun env [p, cf, sn]).1 = 1 ∧
    (∀ d : String, (mainRun env [p, cf, sn, d]).1 = 1) := by
  rcases h with h | h
  · simp [create_service, mainRun, h]
  · by_cases hp : env.pathExists cf = false <;>
      simp [create_service, mainRun, h, hp]

/-- C6: when the supplied working-directory argument names a path that is not
an existing directory, a warning is emitted, the rendered unit file is the
no-`WorkingDirectory=` rendering (identical to the file rendered with no
working directory at all), and execution continues: the advisory path still
succeeds and exits 0, and the privileged path still proceeds to the install
steps, starting with the move. -/
theorem c6_bad_workdir_warns_and_continues (env : Env) (p cf sn d : String)
    (hcf : env.pathExists cf = true)
    (hcmd : pyStrip (env.readFile cf) ≠ "")
    (hsn : pySanitize env.isAlnum sn ≠ "")
    (hd : d ≠ "")
    (hdir : env.isDir d = false) :
    Msg.warnBadDir d ∈ (create_service env cf sn (some d)).msgs ∧
    (create_service env cf sn (some d)).staged =
      some ("/tmp/" ++ (pySanitize env.isAlnum sn ++ ".service"),
        specUnitText (pySanitize env.isAlnum sn)
          (normalizeCommand env (pyStrip (env.readFile cf))) none) ∧
    (create_service env cf sn (some d)).staged =
      (create_service env cf sn none).staged ∧
    (env.euid ≠ 0 → (create_service env cf sn (some d)).success = true ∧
      (mainRun env [p, cf, sn, d]).1 = 0) ∧
    (env.euid = 0 → (create_service env cf sn (some d)).ran.head? =
      some (Step.mv ("/tmp/" ++ (pySanitize env.isAlnum sn ++ ".service"))
        ("/etc/systemd/system/" ++ (pySanitize env.isAlnum sn ++ ".service")))) := by
  refine ⟨?_, ?_, ?_, fun he => ?_, fun he => ?_⟩
  · by_cases he : env.euid = 0
    · simp [create_service, hcf, hcmd, hsn, hd, hdir, he]
    · simp [create_service, hcf, hcmd, hsn, hd, hdir, he]
  · have := create_service_staged env cf sn (some d) hcf hcmd hsn
    rw [this]
    simp [wdNorm, hd, hdir]
  · rw [create_service_staged env cf sn (some d) hcf hcmd hsn,
      create_service_staged env cf sn none hcf hcmd hsn]
    simp [wdNorm, hd, hdir]
  · constructor
    · simp [create_service, hcf, hcmd, hsn, hd, hdir, he]
    · simp [mainRun, create_service, hcf, hcmd, hsn, hd, hdir, he]
  · simp [create_service, installSteps, runSteps_head, hcf, hcmd, hsn, hd,
      hdir, he, strAppendAssoc]

/-- Witness for C5: `/bin/run` exists but holds an empty command; nothing is
written and the exit code is 1. -/
theorem c5_missing_or_empty_command_file_witness :
    (create_service envW "/bin/run" "svc" none).staged = none ∧
    (create_service envW "/bin/run" "svc" none).ran = [] ∧
    (create_service envW "/bin/run" "svc" none).success = false ∧
    (mainRun envW ["prog", "/bin/run", "svc"]).1 = 1 ∧
    (∀ d : String, (mainRun envW ["prog", "/bin/run", "svc", d]).1 = 1) :=
  c5_missing_or_empty_command_file envW "prog" "/bin/run" "svc" none
    (Or.inr (by decide))

/-- Witness for C6: the non-existent directory `/nodir` produces a warning,
the same staged content as no directory at all, advisory exit 0, and on the
privileged side the install still begins with the move step. -/
theorem c6_bad_workdir_warns_and_continues_witness :
    (Msg.warnBadDir "/nodir"
        ∈ (create_service envW "cmd.txt" "svc" (some "/nodir")).msgs ∧
      (create_service envW "cmd.txt" "svc" (some "/nodir")).staged =
        (create_service envW "cmd.txt" "svc" none).staged ∧
      (create_service envW "cmd.txt" "svc" (some "/nodir")).success = true ∧
      (mainRun envW ["prog", "cmd.txt", "svc", "/nodir"]).1 = 0) ∧
    (create_service envR "cmd.txt" "svc" (some "/nodir")).ran.head? =
      some (Step.mv ("/tmp/" ++ (pySanitize envR.isAlnum "svc" ++ ".service"))
        ("/etc/systemd/system/" ++ (pySanitize envR.isAlnum "svc" ++ ".service"))) :=
  have h := c6_bad_workdir_warns_and_continues envW "prog" "cmd.txt" "svc"
    "/nodir" (by decide) (by decide) (by decide) (by decide) (by decide)
  ⟨⟨h.1, h.2.2.1, (h.2.2.2.1 (by decide)).1, (h.2.2.2.1 (by decide)).2⟩,
    (c6_bad_workdir_warns_and_continues envR "prog" "cmd.txt" "svc" "/nodir"
      (by decide) (by decide) (by decide) (by decide) (by decide)).2.2.2.2
      (by decide)⟩

/-- C7: the exit code is 0 exactly on success (including advisory-only runs
where nothing was installed) and 1 exactly on failure (any validation failure
or privileged-install step failure makes `create_service` return failure),
and any positional-argument count other than 2 or 3 (i.e. any `argv` length
other than 3 or 4, program name included) prints the usage message and exits
1. -/
theorem c7_exit_codes (env : Env) (p cf sn d : String) (argv : List String)
    (hlen : argv.length ≠ 3 ∧ argv.length ≠ 4) :
    mainRun env argv = (1, [Msg.usage]) ∧
    ((mainRun env [p, cf, sn]).1 = 0 ↔
      (create_service env cf sn none).success = true) ∧
    ((mainRun env [p, cf, sn]).1 = 1 ↔
      (create_service env cf sn none).success = false) ∧
    ((mainRun env [p, cf, sn, d]).1 = 0 ↔
      (create_service env cf sn (some d)).success = true) ∧
    ((mainRun env [p, cf, sn, d]).1 = 1 ↔
      (create_service env cf sn (some d)).success = false) ∧
    (env.pathExists cf = true → pyStrip (env.readFile cf) ≠ "" →
      pySanitize env.isAlnum sn ≠ "" → env.euid ≠ 0 →
      (mainRun env [p, cf, sn]).1 = 0 ∧ (mainRun env [p, cf, sn, d]).1 = 0) := by
  refine ⟨?_, ?_, ?_, ?_, ?_, fun h1 h2 h3 h4 => ?_⟩
  · rcases argv with _ | ⟨a, _ | ⟨b, _ | ⟨c, _ | ⟨e, _ | ⟨f, rest⟩⟩⟩⟩⟩ <;>
      simp [mainRun] at hlen ⊢
  · cases h : (create_service env cf sn none).success <;> simp [mainRun, h]
  · cases h : (create_service env cf sn none).success <;> simp [mainRun, h]
  · cases h : (create_service env cf sn (some d)).success <;> simp [mainRun, h]
  · cases h : (create_service env cf sn (some d)).success <;> simp [mainRun, h]
  · constructor
    · simp [mainRun, create_service, h1, h2, h3, h4]
    · by_cases hd : d = "" <;> by_cases hdir : env.isDir d <;>
        simp [mainRun, create_service, h1, h2, h3, h4, hd, hdir]

/-- Witness for C7: one argument too many yields usage and exit 1; a valid
advisory run exits 0. -/
theorem c7_exit_codes_witness :
    mainRun envW ["prog", "cmd.txt", "svc", "/srv", "extra"] =
      (1, [Msg.usage]) ∧
    (mainRun envW ["prog", "cmd.txt", "svc"]).1 = 0 ∧
    (mainRun envW ["prog", "cmd.txt", "svc", "/srv"]).1 = 0 :=
  have h := c7_exit_codes envW "prog" "cmd.txt" "svc" "/srv"
    ["prog", "cmd.txt", "svc", "/srv", "extra"] (by decide)
  ⟨h.1, (h.2.2.2.2.2 (by decide) (by decide) (by decide) (by decide)).1,
    (h.2.2.2.2.2 (by decide) (by decide) (by decide) (by decide)).2⟩

/-- C8: running the advisory (unprivileged) path twice with identical inputs
and identical filesystem state produces byte-identical staged unit-file
content at the same staging path.  The two runs are modelled as two
environments agreeing on every filesystem observation (the staged content
never depends on `euid` or on subprocess outcomes), so the staged
path-and-content pair is identical. -/
theorem c8_advisory_idempotent (e1 e2 : Env) (cf sn : String)
    (wd : Option String)
    (hp : e1.pathExists = e2.pathExists)
    (hr : e1.readFile = e2.readFile)
    (hd : e1.isDir = e2.isDir)
    (ha : e1.absPath = e2.absPath)
    (hal : e1.isAlnum = e2.isAlnum)
    (h1 : e1.euid ≠ 0) (h2 : e2.euid ≠ 0) :
    (create_service e1 cf sn wd).staged =
      (create_service e2 cf sn wd).staged := by
  simp only [create_service, normalizeCommand]
  rw [hp, hr, hd, ha, hal]
  simp [h1, h2]

/-- C9: supplying the working-directory argument as the empty string behaves
exactly like supplying no working directory at all — the entire observable
result is identical (so no `WorkingDirectory=` line is rendered) and no
bad-directory warning is ever printed, because Python's truthiness test
`if working_directory:` rejects the empty string before the directory
check. -/
theorem c9_empty_workdir_like_none (env : Env) (cf sn : String) :
    create_service env cf sn (some "") = create_service env cf sn none ∧
    (create_service env cf sn (some "")).msgs.any isWarnBadDir = false := by
  constructor
  · rfl
  · by_cases hcf : env.pathExists cf = false
    · simp [create_service, isWarnBadDir, hcf]
    · by_cases hcmd : pyStrip (env.readFile cf) = ""
      · simp [create_service, isWarnBadDir, hcf, hcmd]
      · by_cases hsn : pySanitize env.isAlnum sn = ""
        · simp [create_service, isWarnBadDir, hcf, hcmd, hsn]
        · by_cases he : env.euid = 0
          · rcases hfail : (runSteps env.stepOk
                (installSteps
                  ("/tmp/" ++ (pySanitize env.isAlnum sn ++ ".service"))
                  ("/etc/systemd/system/" ++
                    (pySanitize env.isAlnum sn ++ ".service"))
                  (pySanitize env.isAlnum sn ++ ".service"))).2 with _ | s <;>
              simp [create_service, isWarnBadDir, hcf, hcmd, hsn, he,
                strAppendAssoc, hfail]
          · simp [create_service, isWarnBadDir, hcf, hcmd, hsn, he]

/-- C10: sanitization keeps every character accepted by Python's
Unicode-aware `str.isalnum`, not only ASCII; under the documented behavior
that `'é'.isalnum()` is true (hypothesis `hal`), the name `"é"` sanitizes to
itself (non-empty) and is used as the unit filename stem
`/tmp/é.service` rather than being rejected. -/
theorem c10_unicode_alnum (env : Env) (cf : String)
    (hal : env.isAlnum 'é' = true)
    (hcf : env.pathExists cf = true)
    (hcmd : pyStrip (env.readFile cf) ≠ "") :
    pySanitize env.isAlnum "é" = "é" ∧
    (create_service env cf "é" none).staged =
      some ("/tmp/" ++ (("é" : String) ++ ".service"),
        specUnitText "é" (normalizeCommand env (pyStrip (env.readFile cf)))
          (wdNorm env none)) := by
  have hs : pySanitize env.isAlnum "é" = "é" := by
    show String.mk (List.filter _ ['é']) = "é"
    simp [List.filter, hal]
  refine ⟨hs, ?_⟩
  have h := create_service_staged env cf "é" none hcf hcmd (by rw [hs]; decide)
  rw [hs] at h
  exact h

/-- Witness for C8: the same concrete unprivileged environment twice. -/
theorem c8_advisory_idempotent_witness :
    (create_service envW "cmd.txt" "svc" (some "/srv")).staged =
      (create_service envW "cmd.txt" "svc" (some "/srv")).staged :=
  c8_advisory_idempotent envW envW "cmd.txt" "svc" (some "/srv")
    rfl rfl rfl rfl rfl (by decide) (by decide)

/-- Witness for C10: in a concrete environment whose `isAlnum` accepts `é`,
the all-non-ASCII name `"é"` is kept and names the staged file. -/
theorem c10_unicode_alnum_witness :
    pySanitize envU.isAlnum "é" = "é" ∧
    (create_service envU "cmd.txt" "é" none).staged =
      some ("/tmp/" ++ (("é" : String) ++ ".service"),
        specUnitText "é"
          (normalizeCommand envU (pyStrip (envU.readFile "cmd.txt")))
          (wdNorm envU none)) :=
  c10_unicode_alnum envU "cmd.txt" (by decide) (by decide) (by decide)
